import Mathlib

/-!
Verification development for a browser stress-testing harness.
The model embeds the event-dispatch layer (EventHandler.handleConsole,
handleRequest, handleResponse), the stateful critical-endpoint monitor
(CustomEventHandler) and the per-session runner orchestration (Runner.run,
the launcher in index.ts) as pure Lean functions over explicit state.
-/

namespace StressTest

/-- A minimal JSON value, the result of parsing a response body. -/
inductive Json where
  | null : Json
  | bool (b : Bool) : Json
  | num (n : Int) : Json
  | str (s : String) : Json
  | arr (elems : List Json) : Json
  | obj (fields : List (String × Json)) : Json

/-- The check `responseBody.error === true` from checkCriticalEndpoint:
true exactly when the parsed body is an object whose "error" field is the
boolean true. -/
def Json.errorIsTrue : Json → Bool
  | .obj fields =>
    match fields.lookup "error" with
    | some (.bool true) => true
    | _ => false
  | _ => false

/-- The outcome stored for a critical endpoint: either a body value
(the parsed JSON, or the literal string "OK (200)" for a healthy health
check) or an error text. -/
inductive ObsResult where
  | body (b : Json) : ObsResult
  | error (msg : String) : ObsResult

/-- One entry of criticalEndpointResponses: url, timestamp, status and
body-or-error, mirroring the object literals stored by
checkCriticalEndpoint. -/
structure Observation where
  url : String
  timestamp : String
  status : Nat
  result : ObsResult

/-- JS Map.set semantics on an association list: replace the value in
place when the key is present, append a fresh entry otherwise. -/
def mapSet {α : Type} : List (String × α) → String → α → List (String × α)
  | [], k, v => [(k, v)]
  | (k', v') :: rest, k, v =>
    if k' = k then (k, v) :: rest else (k', v') :: mapSet rest k v

/-- JS Map.get semantics on an association list. -/
def mapGet {α : Type} : List (String × α) → String → Option α
  | [], _ => none
  | (k', v') :: rest, k => if k' = k then some v' else mapGet rest k

/-- The mutable fields of CustomEventHandler. -/
structure HandlerState where
  errorCount : Nat
  requestCount : Nat
  serverErrorCount : Nat
  criticalEndpointFailed : Bool
  healthCheckPassed : Bool
  criticalEndpointResponses : List (String × Observation)

/-- Fresh handler state: all counters zero, both flags false, empty map. -/
def initState : HandlerState :=
  { errorCount := 0
    requestCount := 0
    serverErrorCount := 0
    criticalEndpointFailed := false
    healthCheckPassed := false
    criticalEndpointResponses := [] }

/-- The fixed list of critical endpoint suffixes. -/
def criticalEndpoints : List String :=
  ["/getStore", "/getToken", "/getOrderTypeData", "/getDataAuthStore", "/health"]

/-- A network response as seen by handleResponse: status, url, resource
type of the originating request, the (asynchronously delivered) outcome of
response.json sharp, and an observation timestamp. -/
structure ResponseEv where
  status : Nat
  url : String
  resourceType : String
  jsonBody : Except String Json
  timestamp : String

/-- A browser event consumed by the dispatcher. -/
inductive Event where
  | console (type text : String) : Event
  | request (method url resourceType : String) : Event
  | response (r : ResponseEv) : Event

/-- JS String.prototype.endsWith, on the character sequence of the
string. -/
def strEndsWith (s suffix : String) : Bool :=
  suffix.data.isSuffixOf s.data

/-- criticalEndpoints.find of the first suffix the url ends with. -/
def matchedEndpoint (url : String) : Option String :=
  criticalEndpoints.find? (fun e => strEndsWith url e)

/-- CustomEventHandler.onConsoleError: increments the console error
counter (threshold and resource-load logging have no state effect). -/
def onConsoleError (s : HandlerState) (_message : String) : HandlerState :=
  { s with errorCount := s.errorCount + 1 }

/-- CustomEventHandler.onRequest: increments the request counter (API and
tracking URL checks only log). -/
def onRequest (s : HandlerState) (_method _url _resourceType : String) : HandlerState :=
  { s with requestCount := s.requestCount + 1 }

/-- CustomEventHandler.onServerError: increments the server error counter
(the short-link special case and the threshold check only log). -/
def onServerError (s : HandlerState) (_r : ResponseEv) : HandlerState :=
  { s with serverErrorCount := s.serverErrorCount + 1 }

/-- CustomEventHandler.onClientError: logs only, no state change. -/
def onClientError (s : HandlerState) (_r : ResponseEv) : HandlerState := s

/-- CustomEventHandler.checkCriticalEndpoint: resolve the endpoint name by
suffix; /health is judged purely on status 200; the others require a
parseable JSON body without error = true. The source stores the parsed
body first and then tests the error flag; both branches of the test below
carry the same stored observation, so the final state coincides. -/
def checkCriticalEndpoint (s : HandlerState) (r : ResponseEv) : HandlerState :=
  match matchedEndpoint r.url with
  | none => s
  | some endpointName =>
    if endpointName = "/health" then
      if r.status = 200 then
        { s with
            healthCheckPassed := true
            criticalEndpointResponses :=
              mapSet s.criticalEndpointResponses endpointName
                ⟨r.url, r.timestamp, r.status, .body (.str "OK (200)")⟩ }
      else
        { s with
            criticalEndpointFailed := true
            criticalEndpointResponses :=
              mapSet s.criticalEndpointResponses endpointName
                ⟨r.url, r.timestamp, r.status, .error ("HTTP " ++ toString r.status)⟩ }
    else
      match r.jsonBody with
      | .ok responseBody =>
        if responseBody.errorIsTrue then
          { s with
              criticalEndpointFailed := true
              criticalEndpointResponses :=
                mapSet s.criticalEndpointResponses endpointName
                  ⟨r.url, r.timestamp, r.status, .body responseBody⟩ }
        else
          { s with
              criticalEndpointResponses :=
                mapSet s.criticalEndpointResponses endpointName
                  ⟨r.url, r.timestamp, r.status, .body responseBody⟩ }
      | .error e =>
        { s with
            criticalEndpointFailed := true
            criticalEndpointResponses :=
              mapSet s.criticalEndpointResponses endpointName
                ⟨r.url, r.timestamp, r.status,
                  .error ("Failed to parse JSON response: " ++ e)⟩ }

/-- CustomEventHandler.onSuccess: run the critical-endpoint check exactly
when the url ends with one of the critical suffixes. -/
def onSuccess (s : HandlerState) (r : ResponseEv) : HandlerState :=
  if criticalEndpoints.any (fun endpoint => strEndsWith r.url endpoint) then
    checkCriticalEndpoint s r
  else s

/-- The status hook selected by handleResponse. -/
inductive StatusHook where
  | success : StatusHook
  | clientError : StatusHook
  | serverError : StatusHook
deriving DecidableEq

/-- The if-else chain of EventHandler.handleResponse: status at least 500
fires the server-error hook, otherwise at least 400 the client-error hook,
otherwise 200..299 the success hook, otherwise none. -/
def classifyStatus (status : Nat) : Option StatusHook :=
  if 500 ≤ status then some .serverError
  else if 400 ≤ status then some .clientError
  else if 200 ≤ status ∧ status < 300 then some .success
  else none

/-- EventHandler.handleResponse: dispatch on the status band. -/
def handleResponse (s : HandlerState) (r : ResponseEv) : HandlerState :=
  match classifyStatus r.status with
  | some .serverError => onServerError s r
  | some .clientError => onClientError s r
  | some .success => onSuccess s r
  | none => s

/-- EventHandler.handleConsole: dispatch on the console message type. -/
def handleConsole (s : HandlerState) (type text : String) : HandlerState :=
  if type = "error" then onConsoleError s text
  else if type = "warning" then s
  else if type = "log" then s
  else s

/-- EventHandler.handleRequest: always invokes the request hook. -/
def handleRequest (s : HandlerState) (method url resourceType : String) : HandlerState :=
  onRequest s method url resourceType

/-- One dispatcher step on an arbitrary event. -/
def handleEvent (s : HandlerState) : Event → HandlerState
  | .console type text => handleConsole s type text
  | .request method url resourceType => handleRequest s method url resourceType
  | .response r => handleResponse s r

/-- A whole observed event sequence, processed in arrival order. -/
def runEvents (s : HandlerState) (es : List Event) : HandlerState :=
  es.foldl handleEvent s

/-- CustomEventHandler.hasCriticalFailure. -/
def hasCriticalFailure (s : HandlerState) : Bool :=
  s.criticalEndpointFailed

/-- CustomEventHandler.hasHealthCheckPassed. -/
def hasHealthCheckPassed (s : HandlerState) : Bool :=
  s.healthCheckPassed

/-- CustomEventHandler.getEndpointResponse. -/
def getEndpointResponse (s : HandlerState) (endpointName : String) : Option Observation :=
  mapGet s.criticalEndpointResponses endpointName

/-- CustomEventHandler.getAllResponsesAsObject: copy each map entry into a
plain object, in iteration order. -/
def getAllResponsesAsObject (s : HandlerState) : List (String × Observation) :=
  s.criticalEndpointResponses.foldl (fun obj kv => mapSet obj kv.1 kv.2) []

/-- The record returned by CustomEventHandler.getStats. -/
structure Stats where
  totalRequests : Nat
  consoleErrors : Nat
  serverErrors : Nat
  criticalEndpointsTracked : Nat
  criticalEndpointsFailed : Bool

/-- CustomEventHandler.getStats. -/
def getStats (s : HandlerState) : Stats :=
  { totalRequests := s.requestCount
    consoleErrors := s.errorCount
    serverErrors := s.serverErrorCount
    criticalEndpointsTracked := s.criticalEndpointResponses.length
    criticalEndpointsFailed := s.criticalEndpointFailed }

/-- Whether an event makes checkCriticalEndpoint store an observation
under the given endpoint name: a response in the success band whose url
resolves to that name by suffix matching. -/
def storesTo (e : Event) (name : String) : Prop :=
  match e with
  | .response r => 200 ≤ r.status ∧ r.status < 300 ∧ matchedEndpoint r.url = some name
  | _ => False

instance (e : Event) (name : String) : Decidable (storesTo e name) :=
  match e with
  | .console _ _ => isFalse id
  | .request _ _ _ => isFalse id
  | .response _ => inferInstanceAs (Decidable (_ ∧ _ ∧ _))

/-! Per-session orchestration: Runner.run and the launcher of index.ts.
The environment records the outcome of each external suspension point
that decides the control flow of one run. -/

/-- Outcomes of the external collaborator calls made during one
Runner.run invocation: whether context and page creation succeed, whether
page.goto succeeds, the value of hasCriticalFailure at the critical check,
and whether scenario.execute returns normally. -/
structure RunEnv where
  ctxOk : Bool
  navOk : Bool
  criticalFailure : Bool
  scenarioOk : Bool

/-- Terminal state of one session. -/
inductive Outcome where
  | completed : Outcome
  | aborted : Outcome
  | errored : Outcome
deriving DecidableEq

/-- Observable trace of one Runner.run invocation: terminal outcome,
whether a context was created and how many times it was closed, whether
the scenario collaborator was invoked, the captureScreenshot labels, a
flag that would record a browser.close issued by the session (the code
never issues one), and the principal consoleLogger lines. -/
structure RunResult where
  outcome : Outcome
  contextCreated : Bool
  contextClosed : Nat
  scenarioInvoked : Bool
  screenshots : List (Option String)
  browserClosedBySession : Bool
  logs : List String
deriving DecidableEq

/-- Runner.run: try-block sequencing of context creation, navigation, the
critical-failure check, the scenario, and artifact capture; the catch
logs the error; the finally closes the context exactly when one was
created. -/
def Runner.run (env : RunEnv) : RunResult :=
  if env.ctxOk = false then
    { outcome := .errored
      contextCreated := false
      contextClosed := 0
      scenarioInvoked := false
      screenshots := []
      browserClosedBySession := false
      logs := ["Error"] }
  else if env.navOk = false then
    { outcome := .errored
      contextCreated := true
      contextClosed := 1
      scenarioInvoked := false
      screenshots := []
      browserClosedBySession := false
      logs := ["Opening", "Error"] }
  else if env.criticalFailure = true then
    { outcome := .aborted
      contextCreated := true
      contextClosed := 1
      scenarioInvoked := false
      screenshots := [none]
      browserClosedBySession := false
      logs := ["Opening", "Loaded",
        "Critical endpoint failure detected - stopping runner and taking screenshot"] }
  else if env.scenarioOk = false then
    { outcome := .errored
      contextCreated := true
      contextClosed := 1
      scenarioInvoked := true
      screenshots := [some "before-scenario"]
      browserClosedBySession := false
      logs := ["Opening", "Loaded", "Scenario execution error", "Error"] }
  else
    { outcome := .completed
      contextCreated := true
      contextClosed := 1
      scenarioInvoked := true
      screenshots := [some "before-scenario", some "after-scenario"]
      browserClosedBySession := false
      logs := ["Opening", "Loaded", "=== Runner Summary ==="] }

/-- Result of the launcher in index.ts: the terminal traces of all
sessions, and how many times the shared browser handle was closed (once,
in the launcher's finally, after Promise.all over the runner promises). -/
structure LaunchResult where
  sessions : List RunResult
  browserCloseCount : Nat

/-- The launcher: every runner is executed on its own environment, each
caught at its own boundary (Runner.run is total), then the shared browser
is closed once. -/
def launch (envs : List RunEnv) : LaunchResult :=
  { sessions := envs.map Runner.run
    browserCloseCount := 1 }

/-! Concrete events used by the scenario theorems and witnesses. -/

/-- A 200 response for /getStore whose body parses with error = false. -/
def evStore : Event :=
  .response ⟨200, "https://a/getStore", "xhr", .ok (.obj [("error", .bool false)]), "t1"⟩

/-- A 200 response for /getToken whose body parses with error = false. -/
def evToken : Event :=
  .response ⟨200, "https://a/getToken", "xhr", .ok (.obj [("error", .bool false)]), "t2"⟩

/-- A 200 response for /health (its body is never inspected). -/
def evHealth200 : Event :=
  .response ⟨200, "https://a/health", "xhr", .ok .null, "t3"⟩

/-- A 200 response for /getOrderTypeData whose body carries error = true. -/
def evOrderTypeErr : Event :=
  .response ⟨200, "https://a/getOrderTypeData", "xhr", .ok (.obj [("error", .bool true)]), "t4"⟩

/-- A 503 response for /health. -/
def evHealth503 : Event :=
  .response ⟨503, "https://a/health", "xhr", .error "SyntaxError", "t5"⟩

/-- The handler state after the Scenario A event sequence. -/
def scenarioA : HandlerState :=
  runEvents initState [evStore, evToken, evHealth200, evOrderTypeErr]

/-- A health response with status 200, as a bare response value. -/
def rH200 : ResponseEv :=
  ⟨200, "https://a/health", "xhr", .ok .null, "t6"⟩

/-- A health response with status 204 (inside the success band, not 200). -/
def rH204 : ResponseEv :=
  ⟨204, "https://a/health", "xhr", .ok .null, "t7"⟩

/-- A health response with status 503, as a bare response value. -/
def rH503 : ResponseEv :=
  ⟨503, "https://a/health", "xhr", .error "SyntaxError", "t8"⟩

/-- A handler state with both sticky flags already set. -/
def sBothFlags : HandlerState :=
  { initState with criticalEndpointFailed := true, healthCheckPassed := true }

/-- The observation stored for a 200 health response with timestamp t3. -/
def obsHealth200 : Observation :=
  ⟨"https://a/health", "t3", 200, .body (.str "OK (200)")⟩

/-- Environments of the three Scenario C sessions: the middle session's
scenario throws, the others complete. -/
def envC0 : RunEnv := ⟨true, true, false, true⟩

/-- The failing Scenario C session environment. -/
def envC1 : RunEnv := ⟨true, true, false, false⟩

/-- The Scenario C environment list. -/
def envsC : List RunEnv := [envC0, envC1, envC0]

/-! Helper lemmas about the association-list map operations. -/

theorem mapGet_mapSet_self {α : Type} (m : List (String × α)) (k : String) (v : α) :
    mapGet (mapSet m k v) k = some v := by
  induction m with
  | nil => simp [mapSet, mapGet]
  | cons kv rest ih =>
    obtain ⟨k', v'⟩ := kv
    by_cases h : k' = k
    · simp [mapSet, mapGet, h]
    · simp [mapSet, mapGet, h, ih]

theorem mapGet_mapSet_ne {α : Type} (m : List (String × α)) (k name : String) (v : α)
    (h : k ≠ name) : mapGet (mapSet m k v) name = mapGet m name := by
  induction m with
  | nil => simp [mapSet, mapGet, h]
  | cons kv rest ih =>
    obtain ⟨k', v'⟩ := kv
    by_cases hk : k' = k
    · subst hk
      simp [mapSet, mapGet, h]
    · simp [mapSet, mapGet, hk, ih]

theorem mem_keys_mapSet {α : Type} (m : List (String × α)) (k k' : String) (v : α) :
    k' ∈ (mapSet m k v).map Prod.fst ↔ k' ∈ m.map Prod.fst ∨ k' = k := by
  induction m with
  | nil => simp [mapSet]
  | cons kv rest ih =>
    obtain ⟨k1, v1⟩ := kv
    by_cases h : k1 = k
    · subst h
      simp [mapSet]
      tauto
    · simp [mapSet, h, ih]
      tauto

theorem nodup_keys_mapSet {α : Type} (m : List (String × α)) (k : String) (v : α)
    (h : (m.map Prod.fst).Nodup) : ((mapSet m k v).map Prod.fst).Nodup := by
  induction m with
  | nil => simp [mapSet]
  | cons kv rest ih =>
    obtain ⟨k1, v1⟩ := kv
    simp only [List.map_cons, List.nodup_cons] at h
    by_cases hk : k1 = k
    · have hset : mapSet ((k1, v1) :: rest) k v = (k, v) :: rest := by
        simp [mapSet, hk]
      rw [hset]
      simp only [List.map_cons, List.nodup_cons]
      exact ⟨by rw [← hk]; exact h.1, h.2⟩
    · have hset : mapSet ((k1, v1) :: rest) k v = (k1, v1) :: mapSet rest k v := by
        simp [mapSet, hk]
      rw [hset]
      simp only [List.map_cons, List.nodup_cons]
      refine ⟨fun hmem => ?_, ih h.2⟩
      rcases (mem_keys_mapSet rest k k1 v).mp hmem with hin | heq
      · exact h.1 hin
      · exact hk heq

theorem keys_mapSet_subset {α : Type} (m : List (String × α)) (k : String) (v : α)
    (L : List String) (hm : ∀ key ∈ m.map Prod.fst, key ∈ L) (hkL : k ∈ L) :
    ∀ key ∈ (mapSet m k v).map Prod.fst, key ∈ L := by
  intro key hkey
  rcases (mem_keys_mapSet m k key v).mp hkey with h | h
  · exact hm key h
  · subst h
    exact hkL

theorem mapGet_none_iff {α : Type} (m : List (String × α)) (name : String) :
    mapGet m name = none ↔ ∀ p ∈ m, p.1 ≠ name := by
  induction m with
  | nil => simp [mapGet]
  | cons kv rest ih =>
    obtain ⟨k', v'⟩ := kv
    by_cases h : k' = name
    · simp [mapGet, h]
    · simp [mapGet, h, ih]

/-! Helper lemmas about the status classification of handleResponse. -/

theorem classifyStatus_success_iff (status : Nat) :
    classifyStatus status = some .success ↔ 200 ≤ status ∧ status < 300 := by
  unfold classifyStatus
  repeat' split
  all_goals try simp_all
  all_goals omega

theorem classifyStatus_client_iff (status : Nat) :
    classifyStatus status = some .clientError ↔ 400 ≤ status ∧ status < 500 := by
  unfold classifyStatus
  repeat' split
  all_goals try simp_all

theorem classifyStatus_server_iff (status : Nat) :
    classifyStatus status = some .serverError ↔ 500 ≤ status := by
  unfold classifyStatus
  repeat' split
  all_goals try simp_all

theorem classifyStatus_none_iff (status : Nat) :
    classifyStatus status = none ↔ status < 200 ∨ (300 ≤ status ∧ status < 400) := by
  unfold classifyStatus
  repeat' split
  all_goals try simp_all
  all_goals omega

/-- Shared frame lemma: a response whose status is outside the success
band never changes the endpoint-monitor state, keeps the console and
request counters, and touches the server-error counter exactly on status
at least 500. -/
theorem handleResponse_outside_success (s : HandlerState) (r : ResponseEv)
    (h : r.status < 200 ∨ 300 ≤ r.status) :
    (handleResponse s r).criticalEndpointResponses = s.criticalEndpointResponses ∧
    (handleResponse s r).healthCheckPassed = s.healthCheckPassed ∧
    (handleResponse s r).criticalEndpointFailed = s.criticalEndpointFailed ∧
    (handleResponse s r).errorCount = s.errorCount ∧
    (handleResponse s r).requestCount = s.requestCount ∧
    (500 ≤ r.status → (handleResponse s r).serverErrorCount = s.serverErrorCount + 1) ∧
    (r.status < 500 → (handleResponse s r).serverErrorCount = s.serverErrorCount) := by
  rcases Nat.lt_or_ge r.status 500 with h5 | h5
  · rcases Nat.lt_or_ge r.status 400 with h4 | h4
    · have hn : classifyStatus r.status = none := (classifyStatus_none_iff _).mpr (by omega)
      unfold handleResponse
      rw [hn]
      simp
      omega
    · have hc : classifyStatus r.status = some .clientError :=
        (classifyStatus_client_iff _).mpr (by omega)
      unfold handleResponse
      rw [hc]
      simp [onClientError]
      omega
  · have hs2 : classifyStatus r.status = some .serverError :=
      (classifyStatus_server_iff _).mpr h5
    unfold handleResponse
    rw [hs2]
    simp [onServerError]
    omega

/-! Step lemmas about a single dispatcher invocation. -/

theorem storesTo_name_mem (e : Event) (name : String) (h : storesTo e name) :
    name ∈ criticalEndpoints := by
  cases e with
  | console type text => exact h.elim
  | request method url resourceType => exact h.elim
  | response r => exact List.mem_of_find?_eq_some h.2.2

theorem handleResponse_dispatch_none (s : HandlerState) (r : ResponseEv)
    (h : classifyStatus r.status = none) : handleResponse s r = s := by
  unfold handleResponse
  rw [h]

theorem handleResponse_dispatch_success (s : HandlerState) (r : ResponseEv)
    (h : classifyStatus r.status = some .success) : handleResponse s r = onSuccess s r := by
  unfold handleResponse
  rw [h]

theorem handleResponse_dispatch_client (s : HandlerState) (r : ResponseEv)
    (h : classifyStatus r.status = some .clientError) :
    handleResponse s r = onClientError s r := by
  unfold handleResponse
  rw [h]

theorem handleResponse_dispatch_server (s : HandlerState) (r : ResponseEv)
    (h : classifyStatus r.status = some .serverError) :
    handleResponse s r = onServerError s r := by
  unfold handleResponse
  rw [h]

theorem checkCriticalEndpoint_counters (s : HandlerState) (r : ResponseEv) :
    (checkCriticalEndpoint s r).requestCount = s.requestCount ∧
    (checkCriticalEndpoint s r).errorCount = s.errorCount ∧
    (checkCriticalEndpoint s r).serverErrorCount = s.serverErrorCount := by
  unfold checkCriticalEndpoint
  repeat' split
  all_goals simp

theorem checkCriticalEndpoint_flags (s : HandlerState) (r : ResponseEv) :
    (s.criticalEndpointFailed = true →
      (checkCriticalEndpoint s r).criticalEndpointFailed = true) ∧
    (s.healthCheckPassed = true → (checkCriticalEndpoint s r).healthCheckPassed = true) := by
  unfold checkCriticalEndpoint
  repeat' split
  all_goals exact ⟨fun h => by simp [h], fun h => by simp [h]⟩

/-- The observation map after one event is either untouched, or one
mapSet away, under a key that the event stores to. -/
theorem handleEvent_map_shape (s : HandlerState) (e : Event) :
    (handleEvent s e).criticalEndpointResponses = s.criticalEndpointResponses ∨
    ∃ k v, storesTo e k ∧
      (handleEvent s e).criticalEndpointResponses = mapSet s.criticalEndpointResponses k v := by
  cases e with
  | console type text =>
    simp only [handleEvent]
    unfold handleConsole onConsoleError
    repeat' split
    all_goals exact Or.inl rfl
  | request method url resourceType =>
    exact Or.inl rfl
  | response r =>
    simp only [handleEvent]
    rcases hcl : classifyStatus r.status with _ | hook
    · rw [handleResponse_dispatch_none s r hcl]
      exact Or.inl rfl
    · cases hook with
      | serverError =>
        rw [handleResponse_dispatch_server s r hcl]
        exact Or.inl rfl
      | clientError =>
        rw [handleResponse_dispatch_client s r hcl]
        exact Or.inl rfl
      | success =>
        rw [handleResponse_dispatch_success s r hcl]
        have hband := (classifyStatus_success_iff r.status).mp hcl
        unfold onSuccess
        split
        · unfold checkCriticalEndpoint
          cases hm : matchedEndpoint r.url with
          | none => exact Or.inl rfl
          | some endpointName =>
            have hst : storesTo (Event.response r) endpointName :=
              ⟨hband.1, hband.2, hm⟩
            dsimp only
            repeat' split
            all_goals exact Or.inr ⟨endpointName, _, hst, rfl⟩
        · exact Or.inl rfl

/-- One event changes each counter by zero or one. -/
theorem handleEvent_counters (s : HandlerState) (e : Event) :
    ((handleEvent s e).requestCount = s.requestCount ∨
      (handleEvent s e).requestCount = s.requestCount + 1) ∧
    ((handleEvent s e).errorCount = s.errorCount ∨
      (handleEvent s e).errorCount = s.errorCount + 1) ∧
    ((handleEvent s e).serverErrorCount = s.serverErrorCount ∨
      (handleEvent s e).serverErrorCount = s.serverErrorCount + 1) := by
  cases e with
  | console type text =>
    simp only [handleEvent]
    unfold handleConsole onConsoleError
    repeat' split
    all_goals simp
  | request method url resourceType =>
    simp only [handleEvent]
    unfold handleRequest onRequest
    simp
  | response r =>
    simp only [handleEvent]
    rcases hcl : classifyStatus r.status with _ | hook
    · rw [handleResponse_dispatch_none s r hcl]
      simp
    · cases hook with
      | serverError =>
        rw [handleResponse_dispatch_server s r hcl]
        simp [onServerError]
      | clientError =>
        rw [handleResponse_dispatch_client s r hcl]
        simp [onClientError]
      | success =>
        rw [handleResponse_dispatch_success s r hcl]
        unfold onSuccess
        split
        · have h := checkCriticalEndpoint_counters s r
          exact ⟨Or.inl h.1, Or.inl h.2.1, Or.inl h.2.2⟩
        · simp

/-- One event can only keep a sticky flag that is already set. -/
theorem handleEvent_flags (s : HandlerState) (e : Event) :
    (s.criticalEndpointFailed = true → (handleEvent s e).criticalEndpointFailed = true) ∧
    (s.healthCheckPassed = true → (handleEvent s e).healthCheckPassed = true) := by
  cases e with
  | console type text =>
    simp only [handleEvent]
    unfold handleConsole onConsoleError
    repeat' split
    all_goals exact ⟨fun h => by simp [h], fun h => by simp [h]⟩
  | request method url resourceType =>
    simp only [handleEvent]
    unfold handleRequest onRequest
    exact ⟨fun h => by simp [h], fun h => by simp [h]⟩
  | response r =>
    simp only [handleEvent]
    rcases hcl : classifyStatus r.status with _ | hook
    · rw [handleResponse_dispatch_none s r hcl]
      exact ⟨id, id⟩
    · cases hook with
      | serverError =>
        rw [handleResponse_dispatch_server s r hcl]
        exact ⟨fun h => by simp [onServerError, h], fun h => by simp [onServerError, h]⟩
      | clientError =>
        rw [handleResponse_dispatch_client s r hcl]
        exact ⟨id, id⟩
      | success =>
        rw [handleResponse_dispatch_success s r hcl]
        unfold onSuccess
        split
        · exact checkCriticalEndpoint_flags s r
        · exact ⟨id, id⟩

/-! Lemmas about whole event sequences. -/

theorem runEvents_flags (s : HandlerState) (es : List Event) :
    (s.criticalEndpointFailed = true → (runEvents s es).criticalEndpointFailed = true) ∧
    (s.healthCheckPassed = true → (runEvents s es).healthCheckPassed = true) := by
  induction es generalizing s with
  | nil => exact ⟨id, id⟩
  | cons e rest ih =>
    have h1 := handleEvent_flags s e
    have h2 := ih (handleEvent s e)
    simp only [runEvents, List.foldl_cons] at h2 ⊢
    exact ⟨fun h => h2.1 (h1.1 h), fun h => h2.2 (h1.2 h)⟩

theorem runEvents_counters_le (s : HandlerState) (es : List Event) :
    s.requestCount ≤ (runEvents s es).requestCount ∧
    s.errorCount ≤ (runEvents s es).errorCount ∧
    s.serverErrorCount ≤ (runEvents s es).serverErrorCount := by
  induction es generalizing s with
  | nil => exact ⟨Nat.le_refl _, Nat.le_refl _, Nat.le_refl _⟩
  | cons e rest ih =>
    have h1 := handleEvent_counters s e
    have h2 := ih (handleEvent s e)
    simp only [runEvents, List.foldl_cons] at h2 ⊢
    refine ⟨?_, ?_, ?_⟩
    · rcases h1.1 with h | h <;> omega
    · rcases h1.2.1 with h | h <;> omega
    · rcases h1.2.2 with h | h <;> omega

theorem runEvents_mapWF_general (s : HandlerState) (es : List Event)
    (hn : (s.criticalEndpointResponses.map Prod.fst).Nodup)
    (hk : ∀ key ∈ s.criticalEndpointResponses.map Prod.fst, key ∈ criticalEndpoints) :
    ((runEvents s es).criticalEndpointResponses.map Prod.fst).Nodup ∧
    ∀ key ∈ (runEvents s es).criticalEndpointResponses.map Prod.fst,
      key ∈ criticalEndpoints := by
  induction es generalizing s with
  | nil => exact ⟨hn, hk⟩
  | cons e rest ih =>
    simp only [runEvents, List.foldl_cons] at ih ⊢
    rcases handleEvent_map_shape s e with hsame | ⟨k, v, hst, hset⟩
    · exact ih (handleEvent s e) (by rw [hsame]; exact hn) (by rw [hsame]; exact hk)
    · refine ih (handleEvent s e) (by rw [hset]; exact nodup_keys_mapSet _ _ _ hn) ?_
      rw [hset]
      exact keys_mapSet_subset _ _ _ _ hk (storesTo_name_mem e k hst)

theorem runEvents_absent_general (s : HandlerState) (es : List Event) (name : String)
    (hno : ∀ e ∈ es, ¬ storesTo e name)
    (h : mapGet s.criticalEndpointResponses name = none) :
    mapGet (runEvents s es).criticalEndpointResponses name = none := by
  induction es generalizing s with
  | nil => exact h
  | cons e rest ih =>
    simp only [runEvents, List.foldl_cons] at ih ⊢
    refine ih (handleEvent s e) (fun e2 he2 => hno e2 (List.mem_cons_of_mem _ he2)) ?_
    rcases handleEvent_map_shape s e with hsame | ⟨k, v, hst, hset⟩
    · rw [hsame]
      exact h
    · rw [hset]
      have hne : k ≠ name := by
        intro heq
        exact hno e (List.mem_cons_self _ _) (heq ▸ hst)
      rw [mapGet_mapSet_ne _ _ _ _ hne]
      exact h

theorem mapGet_fold_obj (m : List (String × Observation)) (name : String) :
    ∀ acc : List (String × Observation), (∀ p ∈ m, p.1 ≠ name) →
      mapGet acc name = none →
      mapGet (m.foldl (fun obj kv => mapSet obj kv.1 kv.2) acc) name = none := by
  induction m with
  | nil =>
    intro acc _ hacc
    exact hacc
  | cons kv rest ih =>
    intro acc hm hacc
    simp only [List.foldl_cons]
    refine ih _ (fun p hp => hm p (List.mem_cons_of_mem _ hp)) ?_
    rw [mapGet_mapSet_ne _ _ _ _ (hm kv (List.mem_cons_self _ _))]
    exact hacc

/-! Claim theorems. -/

/-- C1 counterexample: a /health response with status 503 is dispatched to
the server-error hook, never to the critical-endpoint evaluation, so
criticalEndpointFailed stays false and no health observation (in
particular none with error text HTTP 503) is stored; only the server
error counter moves. This refutes the claim that any non-200 health
status sets criticalEndpointFailed. -/
theorem health_503_counterexample :
    hasCriticalFailure (runEvents initState [evHealth503]) = false ∧
    hasHealthCheckPassed (runEvents initState [evHealth503]) = false ∧
    getEndpointResponse (runEvents initState [evHealth503]) "/health" = none ∧
    (getStats (runEvents initState [evHealth503])).serverErrors = 1 :=
  ⟨rfl, rfl, rfl, rfl⟩

/-- C1 (amended): for a response whose url resolves to /health,
healthCheckPassed becomes true iff the status is exactly 200; a non-200
status inside the success band 200..299 sets criticalEndpointFailed,
leaves healthCheckPassed unchanged and stores an observation whose error
text encodes the HTTP status; a status outside the success band never
reaches health evaluation and leaves both flags and the observation map
unchanged. -/
theorem health_endpoint_evaluation (s : HandlerState) (r : ResponseEv)
    (hm : matchedEndpoint r.url = some "/health") :
    (200 ≤ r.status ∧ r.status < 300 →
      (r.status = 200 →
        hasHealthCheckPassed (handleResponse s r) = true ∧
        getEndpointResponse (handleResponse s r) "/health" =
          some ⟨r.url, r.timestamp, r.status, .body (.str "OK (200)")⟩) ∧
      (r.status ≠ 200 →
        hasHealthCheckPassed (handleResponse s r) = hasHealthCheckPassed s ∧
        hasCriticalFailure (handleResponse s r) = true ∧
        getEndpointResponse (handleResponse s r) "/health" =
          some ⟨r.url, r.timestamp, r.status, .error ("HTTP " ++ toString r.status)⟩)) ∧
    (r.status < 200 ∨ 300 ≤ r.status →
      hasHealthCheckPassed (handleResponse s r) = hasHealthCheckPassed s ∧
      hasCriticalFailure (handleResponse s r) = hasCriticalFailure s ∧
      (handleResponse s r).criticalEndpointResponses = s.criticalEndpointResponses) := by
  constructor
  · intro hband
    have hcl : classifyStatus r.status = some .success :=
      (classifyStatus_success_iff _).mpr hband
    rw [handleResponse_dispatch_success s r hcl]
    have hany : (criticalEndpoints.any fun endpoint => strEndsWith r.url endpoint) = true :=
      List.any_eq_true.mpr ⟨"/health", List.mem_of_find?_eq_some hm, List.find?_some hm⟩
    unfold onSuccess
    rw [if_pos hany]
    unfold checkCriticalEndpoint
    rw [hm]
    dsimp only
    rw [if_pos rfl]
    constructor
    · intro h200
      rw [if_pos h200]
      refine ⟨rfl, ?_⟩
      unfold getEndpointResponse
      dsimp only
      exact mapGet_mapSet_self _ _ _
    · intro hne
      rw [if_neg hne]
      refine ⟨rfl, rfl, ?_⟩
      unfold getEndpointResponse
      dsimp only
      exact mapGet_mapSet_self _ _ _
  · intro hout
    have h := handleResponse_outside_success s r hout
    exact ⟨h.2.1, h.2.2.1, h.1⟩

/-- C1 witness: concrete health responses with status 200, 204 and 503
instantiating each hypothesis of the amended health evaluation theorem. -/
theorem health_endpoint_evaluation_witness :
    hasHealthCheckPassed (handleResponse initState rH200) = true ∧
    hasCriticalFailure (handleResponse initState rH204) = true ∧
    hasCriticalFailure (handleResponse initState rH503) = hasCriticalFailure initState :=
  ⟨(((health_endpoint_evaluation initState rH200 (by decide)).1 (by decide)).1 rfl).1,
   ((((health_endpoint_evaluation initState rH204 (by decide)).1 (by decide)).2
      (by decide)).2.1),
   ((health_endpoint_evaluation initState rH503 (by decide)).2 (by decide)).2.1⟩

/-- C2 counterexample: status 600 lies outside the interval 200..599, yet
the classification fires the server-error hook, refuting the claim that
no classification hook fires there. -/
theorem status_600_counterexample :
    classifyStatus 600 = some .serverError ∧ ¬ classifyStatus 600 = none := by
  decide

/-- C2 (amended): for status s exactly one of the success, client-error
and server-error hooks fires when s lies in 200..299, in 400..499, or at
500 and above respectively; no classification hook fires for s below 200
or in 300..399 (for s at 600 and above the server-error branch still
applies); and handleResponse dispatches to exactly the hook selected by
the classification. -/
theorem status_band_classification (status : Nat) (s : HandlerState) (r : ResponseEv) :
    (200 ≤ status → status < 300 → classifyStatus status = some .success) ∧
    (400 ≤ status → status < 500 → classifyStatus status = some .clientError) ∧
    (500 ≤ status → classifyStatus status = some .serverError) ∧
    (status < 200 → classifyStatus status = none) ∧
    (300 ≤ status → status < 400 → classifyStatus status = none) ∧
    (classifyStatus r.status = some .success → handleResponse s r = onSuccess s r) ∧
    (classifyStatus r.status = some .clientError → handleResponse s r = onClientError s r) ∧
    (classifyStatus r.status = some .serverError → handleResponse s r = onServerError s r) ∧
    (classifyStatus r.status = none → handleResponse s r = s) :=
  ⟨fun h1 h2 => (classifyStatus_success_iff _).mpr ⟨h1, h2⟩,
   fun h1 h2 => (classifyStatus_client_iff _).mpr ⟨h1, h2⟩,
   fun h1 => (classifyStatus_server_iff _).mpr h1,
   fun h1 => (classifyStatus_none_iff _).mpr (Or.inl h1),
   fun h1 h2 => (classifyStatus_none_iff _).mpr (Or.inr ⟨h1, h2⟩),
   handleResponse_dispatch_success s r,
   handleResponse_dispatch_client s r,
   handleResponse_dispatch_server s r,
   handleResponse_dispatch_none s r⟩

/-- C2 witness: concrete statuses in every band, and a concrete dispatch
of a 503 response to the server-error hook. -/
theorem status_band_classification_witness :
    classifyStatus 250 = some .success ∧
    classifyStatus 404 = some .clientError ∧
    classifyStatus 503 = some .serverError ∧
    classifyStatus 101 = none ∧
    classifyStatus 304 = none ∧
    handleResponse initState rH503 = onServerError initState rH503 :=
  ⟨(status_band_classification 250 initState rH503).1 (by decide) (by decide),
   (status_band_classification 404 initState rH503).2.1 (by decide) (by decide),
   (status_band_classification 503 initState rH503).2.2.1 (by decide),
   (status_band_classification 101 initState rH503).2.2.2.1 (by decide),
   (status_band_classification 304 initState rH503).2.2.2.2.1 (by decide) (by decide),
   (status_band_classification 0 initState rH503).2.2.2.2.2.2.2.1 (by decide)⟩

/-- C3: after the Scenario A sequence (getStore 200 error false, getToken
200 error false, health 200, getOrderTypeData 200 error true) the monitor
reports a critical failure, the stored getOrderTypeData observation holds
the parsed error body, and the stored health observation is the synthetic
success record with status 200 and body OK (200). -/
theorem scenario_a_evaluation :
    hasCriticalFailure scenarioA = true ∧
    getEndpointResponse scenarioA "/getOrderTypeData" =
      some ⟨"https://a/getOrderTypeData", "t4", 200, .body (.obj [("error", .bool true)])⟩ ∧
    getEndpointResponse scenarioA "/health" =
      some ⟨"https://a/health", "t3", 200, .body (.str "OK (200)")⟩ :=
  ⟨rfl, rfl, rfl⟩

/-- C4: both sticky flags start false, and once criticalEndpointFailed or
healthCheckPassed is true, no later event sequence resets it; the query
functions are pure reads of the state. -/
theorem sticky_flags_monotone (s : HandlerState) (es : List Event) :
    hasCriticalFailure initState = false ∧
    hasHealthCheckPassed initState = false ∧
    (hasCriticalFailure s = true → hasCriticalFailure (runEvents s es) = true) ∧
    (hasHealthCheckPassed s = true → hasHealthCheckPassed (runEvents s es) = true) :=
  ⟨rfl, rfl, (runEvents_flags s es).1, (runEvents_flags s es).2⟩

/-- C4 witness: a state with both flags set keeps them across concrete
further events. -/
theorem sticky_flags_monotone_witness :
    hasCriticalFailure (runEvents sBothFlags [evHealth200]) = true ∧
    hasHealthCheckPassed (runEvents sBothFlags [evHealth503]) = true :=
  ⟨(sticky_flags_monotone sBothFlags [evHealth200]).2.2.1 rfl,
   (sticky_flags_monotone sBothFlags [evHealth503]).2.2.2 rfl⟩

/-- C5: each handler invocation leaves every getStats counter unchanged
or increments it by one, and over any event sequence the counters are
non-decreasing. -/
theorem stats_counters_nondecreasing (s : HandlerState) (e : Event) (es : List Event) :
    ((getStats (handleEvent s e)).totalRequests = (getStats s).totalRequests ∨
      (getStats (handleEvent s e)).totalRequests = (getStats s).totalRequests + 1) ∧
    ((getStats (handleEvent s e)).consoleErrors = (getStats s).consoleErrors ∨
      (getStats (handleEvent s e)).consoleErrors = (getStats s).consoleErrors + 1) ∧
    ((getStats (handleEvent s e)).serverErrors = (getStats s).serverErrors ∨
      (getStats (handleEvent s e)).serverErrors = (getStats s).serverErrors + 1) ∧
    (getStats s).totalRequests ≤ (getStats (runEvents s es)).totalRequests ∧
    (getStats s).consoleErrors ≤ (getStats (runEvents s es)).consoleErrors ∧
    (getStats s).serverErrors ≤ (getStats (runEvents s es)).serverErrors := by
  have h1 := handleEvent_counters s e
  have h2 := runEvents_counters_le s es
  exact ⟨h1.1, h1.2.1, h1.2.2, h2.1, h2.2.1, h2.2.2⟩

/-- C6: from a fresh session, the observation map never exceeds the five
fixed endpoint names, every stored key is one of them, and storing under
an existing name overwrites the earlier observation (last-write-wins on
mapSet followed by mapGet). -/
theorem observation_map_bounded (es : List Event) (m : List (String × Observation))
    (k : String) (v : Observation) :
    (runEvents initState es).criticalEndpointResponses.length ≤ 5 ∧
    (∀ p ∈ (runEvents initState es).criticalEndpointResponses, p.1 ∈ criticalEndpoints) ∧
    mapGet (mapSet m k v) k = some v := by
  have hwf := runEvents_mapWF_general initState es (by simp [initState]) (by simp [initState])
  refine ⟨?_, ?_, mapGet_mapSet_self m k v⟩
  · have hsub : (runEvents initState es).criticalEndpointResponses.map Prod.fst ⊆
        criticalEndpoints := fun x hx => hwf.2 x hx
    have hlen := (List.subperm_of_subset hwf.1 hsub).length_le
    calc (runEvents initState es).criticalEndpointResponses.length
        = ((runEvents initState es).criticalEndpointResponses.map Prod.fst).length :=
          (List.length_map _ _).symm
      _ ≤ criticalEndpoints.length := hlen
      _ = 5 := rfl
  · intro p hp
    exact hwf.2 p.1 (List.mem_map_of_mem _ hp)

/-- C6 witness: the single stored key after a healthy health response is
one of the fixed names, and a concrete overwrite is observed by mapGet. -/
theorem observation_map_bounded_witness :
    ("/health" : String) ∈ criticalEndpoints ∧
    mapGet (mapSet [] "/health" obsHealth200) "/health" = some obsHealth200 := by
  have h := observation_map_bounded [evHealth200] [] "/health" obsHealth200
  have hmem : ("/health", obsHealth200) ∈
      (runEvents initState [evHealth200]).criticalEndpointResponses := by
    have heq : (runEvents initState [evHealth200]).criticalEndpointResponses =
        [("/health", obsHealth200)] := rfl
    rw [heq]
    exact List.mem_singleton.mpr rfl
  exact ⟨h.2.1 ("/health", obsHealth200) hmem, h.2.2⟩

/-- C9: a response whose url ends with a critical-endpoint suffix but
whose status is outside the success band leaves the observation map and
both flags unchanged (endpoint evaluation is reachable only through the
success hook); only the server-error counter moves, exactly when the
status is at least 500. -/
theorem critical_url_error_status_frame (s : HandlerState) (r : ResponseEv)
    (_hcrit : (criticalEndpoints.any fun endpoint => strEndsWith r.url endpoint) = true)
    (hout : r.status < 200 ∨ 300 ≤ r.status) :
    (handleResponse s r).criticalEndpointResponses = s.criticalEndpointResponses ∧
    hasHealthCheckPassed (handleResponse s r) = hasHealthCheckPassed s ∧
    hasCriticalFailure (handleResponse s r) = hasCriticalFailure s ∧
    (handleResponse s r).errorCount = s.errorCount ∧
    (handleResponse s r).requestCount = s.requestCount ∧
    (500 ≤ r.status → (handleResponse s r).serverErrorCount = s.serverErrorCount + 1) ∧
    (r.status < 500 → (handleResponse s r).serverErrorCount = s.serverErrorCount) := by
  have h := handleResponse_outside_success s r hout
  exact ⟨h.1, h.2.1, h.2.2.1, h.2.2.2.1, h.2.2.2.2.1, h.2.2.2.2.2.1, h.2.2.2.2.2.2⟩

/-- C9 witness: the 503 health response leaves the fresh monitor state
unchanged except for the server-error counter. -/
theorem critical_url_error_status_frame_witness :
    (handleResponse initState rH503).criticalEndpointResponses =
      initState.criticalEndpointResponses ∧
    (handleResponse initState rH503).serverErrorCount = initState.serverErrorCount + 1 := by
  have h := critical_url_error_status_frame initState rH503 (by decide) (by decide)
  exact ⟨h.1, h.2.2.2.2.2.1 (by decide)⟩

/-- C10: an endpoint name that no event of the session stored to — any of
the five before their first matching success-band response, and any name
outside the fixed set at any time — is absent from getEndpointResponse and
from getAllResponsesAsObject. -/
theorem unobserved_endpoint_absent (es : List Event) (name : String)
    (hno : ∀ e ∈ es, ¬ storesTo e name) :
    getEndpointResponse (runEvents initState es) name = none ∧
    mapGet (getAllResponsesAsObject (runEvents initState es)) name = none ∧
    (name ∉ criticalEndpoints → ∀ e : Event, ¬ storesTo e name) := by
  have habs : mapGet (runEvents initState es).criticalEndpointResponses name = none :=
    runEvents_absent_general initState es name hno rfl
  refine ⟨habs, ?_, ?_⟩
  · unfold getAllResponsesAsObject
    exact mapGet_fold_obj _ name [] ((mapGet_none_iff _ _).mp habs) rfl
  · intro hnotin e hst
    exact hnotin (storesTo_name_mem e name hst)

/-- C10 witness: after only a health response, /getStore is absent from
both query views. -/
theorem unobserved_endpoint_absent_witness :
    getEndpointResponse (runEvents initState [evHealth200]) "/getStore" = none ∧
    mapGet (getAllResponsesAsObject (runEvents initState [evHealth200])) "/getStore" =
      none := by
  have h := unobserved_endpoint_absent [evHealth200] "/getStore" (by decide)
  exact ⟨h.1, h.2.1⟩

/-- Per-environment facts about one Runner.run invocation, shared by the
runner claims. -/
theorem run_env_facts (env : RunEnv) :
    (Runner.run env).browserClosedBySession = false ∧
    ((Runner.run env).contextCreated = true → (Runner.run env).contextClosed = 1) ∧
    ((Runner.run env).contextCreated = false → (Runner.run env).contextClosed = 0) ∧
    (env.ctxOk = true → env.navOk = true → env.criticalFailure = false →
      ((env.scenarioOk = false →
          (Runner.run env).outcome = .errored ∧ (Runner.run env).scenarioInvoked = true) ∧
       (env.scenarioOk = true → (Runner.run env).outcome = .completed))) := by
  rcases env with ⟨c, n, f, o⟩
  cases c <;> cases n <;> cases f <;> cases o <;> simp [Runner.run]

/-- C7: once the critical check is reached (context and navigation
succeeded), a true hasCriticalFailure flag yields the aborted outcome
with a diagnostic screenshot and no scenario invocation; the scenario is
invoked iff the flag is false at that check; the context is closed and
log lines are emitted in both cases. -/
theorem critical_failure_short_circuit (env : RunEnv)
    (hctx : env.ctxOk = true) (hnav : env.navOk = true) :
    (env.criticalFailure = true →
      (Runner.run env).outcome = .aborted ∧
      (Runner.run env).scenarioInvoked = false ∧
      (Runner.run env).screenshots = [none] ∧
      (Runner.run env).contextClosed = 1 ∧
      (Runner.run env).logs ≠ []) ∧
    ((Runner.run env).scenarioInvoked = true ↔ env.criticalFailure = false) ∧
    (Runner.run env).contextClosed = 1 ∧
    (Runner.run env).logs ≠ [] := by
  rcases env with ⟨c, n, f, o⟩
  cases c <;> cases n <;> cases f <;> cases o <;> simp_all [Runner.run]

/-- C7 witness: a session whose monitor reports a critical failure at the
check aborts without running the scenario. -/
theorem critical_failure_short_circuit_witness :
    (Runner.run ⟨true, true, true, true⟩).outcome = .aborted ∧
    (Runner.run ⟨true, true, true, true⟩).scenarioInvoked = false :=
  ⟨((critical_failure_short_circuit ⟨true, true, true, true⟩ rfl rfl).1 rfl).1,
   ((critical_failure_short_circuit ⟨true, true, true, true⟩ rfl rfl).1 rfl).2.1⟩

/-- C8: the launcher closes the shared browser exactly once; each
session's result depends only on its own environment; no session closes
the browser itself; every session that created a context closes it
exactly once on every exit path, and a scenario error is absorbed at the
session boundary as the errored outcome while a clean scenario completes. -/
theorem launcher_session_isolation (envs : List RunEnv) (i : Nat) (env : RunEnv) :
    (launch envs).browserCloseCount = 1 ∧
    (launch envs).sessions[i]? = (envs[i]?).map Runner.run ∧
    (Runner.run env).browserClosedBySession = false ∧
    ((Runner.run env).contextCreated = true → (Runner.run env).contextClosed = 1) ∧
    ((Runner.run env).contextCreated = false → (Runner.run env).contextClosed = 0) ∧
    (env.ctxOk = true → env.navOk = true → env.criticalFailure = false →
      ((env.scenarioOk = false →
          (Runner.run env).outcome = .errored ∧ (Runner.run env).scenarioInvoked = true) ∧
       (env.scenarioOk = true → (Runner.run env).outcome = .completed))) := by
  have h := run_env_facts env
  exact ⟨rfl, List.getElem?_map _ _ _, h.1, h.2.1, h.2.2.1, h.2.2.2⟩

/-- C8 witness (Scenario C): of three concurrent sessions the middle one
whose scenario throws ends errored with its context closed, the others
complete, and the browser is closed once by the launcher. -/
theorem launcher_session_isolation_witness :
    (launch envsC).browserCloseCount = 1 ∧
    (launch envsC).sessions[1]? = some (Runner.run envC1) ∧
    (Runner.run envC1).outcome = .errored ∧
    (Runner.run envC1).contextClosed = 1 ∧
    (Runner.run envC0).outcome = .completed := by
  have h1 := launcher_session_isolation envsC 1 envC1
  have h0 := launcher_session_isolation envsC 0 envC0
  refine ⟨h1.1, ?_, ((h1.2.2.2.2.2 rfl rfl rfl).1 rfl).1,
    h1.2.2.2.1 rfl, (h0.2.2.2.2.2 rfl rfl rfl).2 rfl⟩
  rw [h1.2.1]
  rfl

end StressTest
